import Mathlib

/-! # Modbus gripper / robot programs: a shallow embedding

Two C programs are embedded here.

* `modbus_rtu.c` drives a gripper over a serial line with hardcoded RTU frames and
  `while (1)` polling loops that compare the receive buffer with an expected frame
  through `bufcmp`.
* `modbus_tcp.c` reads six registers from a robot controller over TCP with hardcoded
  MBAP request frames and decodes the reply into six `short` values.

Bytes (`unsigned char`) are natural numbers, C `int`/`short` values are integers with an
explicit two's complement wrap, a C buffer is the list of its bytes, and the operating
system (serial port, socket) is a record of scripted results.
-/

set_option maxRecDepth 100000

/-- The effect of a successful `read(fd, buf, count)` on `buf`: at most `count` bytes
arrive and overwrite the start of the buffer; the bytes behind them keep what they
held. -/
def read_into (count : Nat) (buf data : List Nat) : List Nat :=
  data.take count ++ buf.drop (data.take count).length

namespace ModbusRtu

/-! ## Frame tables of `modbus_rtu.c` -/

def BUF_SIZE : Nat := 512

def activate : List Nat :=
  [0x09, 0x10, 0x03, 0xe8, 0x00, 0x03, 0x06, 0x00, 0x00, 0x00, 0x00, 0x00, 0x00, 0x73, 0x30]

def read_gripper_status : List Nat :=
  [0x09, 0x03, 0x07, 0xd0, 0x00, 0x01, 0x85, 0xcf]

def activate_success : List Nat :=
  [0x09, 0x03, 0x02, 0x00, 0x00, 0x59, 0x85]

def close_with_full_speed_full_force : List Nat :=
  [0x09, 0x10, 0x03, 0xe8, 0x00, 0x03, 0x06, 0x09, 0x00, 0x00, 0xff, 0xff, 0xff, 0x42, 0x29]

def read_until_grip_completed : List Nat :=
  [0x09, 0x03, 0x07, 0xd0, 0x00, 0x03, 0x04, 0x0e]

def grip_is_completed : List Nat :=
  [0x09, 0x03, 0x02, 0xf9, 0x00, 0x1b, 0xd5]

def open_with_full_speed_full_force : List Nat :=
  [0x09, 0x10, 0x03, 0xe8, 0x00, 0x03, 0x06, 0x09, 0x00, 0x00, 0x00, 0xff, 0xff, 0x72, 0x19]

def read_until_open_completed : List Nat :=
  [0x09, 0x03, 0x07, 0xd0, 0x00, 0x03, 0x04, 0x0e]

def open_is_completed : List Nat :=
  [0x09, 0x03, 0x06, 0xf9, 0x00, 0x00, 0x00, 0x03, 0x00, 0x52, 0x2c]

/-- The nine frame tables, in the order of the source file. -/
def rtu_frames : List (List Nat) :=
  [activate, read_gripper_status, activate_success, close_with_full_speed_full_force,
   read_until_grip_completed, grip_is_completed, open_with_full_speed_full_force,
   read_until_open_completed, open_is_completed]

/-- The three expected-response tables a received buffer is compared with. -/
def expected_frames : List (List Nat) :=
  [activate_success, grip_is_completed, open_is_completed]

/-! ## `bufcmp` -/

/-- Conversion of an integer to a 32-bit C `int` (two's complement wrap). -/
def to_int (n : Int) : Int := (n + 2147483648) % 4294967296 - 2147483648

/-- C `strlen` on a buffer: the index of its first zero byte.  A buffer without a zero
byte makes `strlen` read past its end, which is undefined: `none`. -/
def strlen : List Nat → Option Nat
  | [] => none
  | b :: bs => if b = 0 then some 0 else (strlen bs).map (· + 1)

/-- The `for (int i = 0; i < len1; ++i)` loop of `bufcmp`: the first argument is the
number of iterations left (`len1 - i`), the second is `i`.  A read at an index outside
a buffer is undefined: `none`. -/
def bufcmp_for (s1 s2 : List Nat) : Nat → Nat → Option Int
  | 0, _ => some 0
  | k + 1, i =>
    match s1[i]?, s2[i]? with
    | some a, some b => if a ≠ b then some 1 else bufcmp_for s1 s2 k (i + 1)
    | _, _ => none

/-- C `bufcmp(s1, s2)`: `some 0` is "same", `some 1` is "different", `none` is
undefined behaviour (a `strlen` that runs off the end of its buffer). -/
def bufcmp (s1 s2 : List Nat) : Option Int :=
  match strlen s1, strlen s2 with
  | some n1, some n2 =>
    let len1 := to_int n1
    let len2 := to_int n2
    if len1 ≠ len2 then some 1 else bufcmp_for s1 s2 len1.toNat 0
  | _, _ => none

/-- Modelled from the spec: one bit step of `crc16`, which has no counterpart in the
sources (reflected polynomial 0xA001). -/
def crc16_bit (c : Nat) : Nat :=
  if c % 2 = 1 then (c >>> 1) ^^^ 0xA001 else c >>> 1

/-- Modelled from the spec: `crc16` folds one byte into the running checksum: xor the
byte into the low bits, then eight bit steps. -/
def crc16_byte (c b : Nat) : Nat :=
  crc16_bit (crc16_bit (crc16_bit (crc16_bit (crc16_bit (crc16_bit (crc16_bit
    (crc16_bit (c ^^^ b))))))))

/-- Modelled from the spec: `crc16(bytes) -> u16`, the standard Modbus CRC-16
(polynomial 0xA001, initial value 0xFFFF, reflected, no final XOR).  The sources
contain no checksum routine. -/
def crc16 (bytes : List Nat) : Nat := bytes.foldl crc16_byte 0xFFFF

/-- Modelled from the spec: the RTU frame invariant
`crc16(frame[0..len-2]) == (frame[len-2], frame[len-1])`, the checksum appended low
byte first.  The sources never check it. -/
def rtu_frame_ok (frame : List Nat) : Bool :=
  decide (2 ≤ frame.length) &&
    (frame.drop (frame.length - 2) ==
      [crc16 (frame.take (frame.length - 2)) % 256,
       crc16 (frame.take (frame.length - 2)) / 256])

/-- The function-code byte of an RTU frame, `unit_id(1) | function_code(1) | ...`. -/
def rtu_function_code (frame : List Nat) : Option Nat := frame[1]?

/-! ## The serial port and the three gripper operations -/

/-- The serial device as the program sees it: the results of the calls made by
`open_modbus`, of the successive `write` calls and of the successive `read` calls
(`none` is a negative result, `some data` delivers `data`). -/
structure Dev where
  open_fd : Int
  cfsetispeed : Int
  cfsetospeed : Int
  tcsetattr : Int
  write : Nat → Int
  read : Nat → Option (List Nat)

/-- C `open_modbus`: the descriptor, or -1 when `open` or one of the line settings
fails. -/
def open_modbus (dev : Dev) : Int :=
  if dev.open_fd < 0 then -1
  else if dev.cfsetispeed < 0 then -1
  else if dev.cfsetospeed < 0 then -1
  else if dev.tcsetattr < 0 then -1
  else dev.open_fd

/-- What a gripper operation has done to the port so far: the frames passed to `write`
(oldest first), the number of `read` calls, and whether the port was closed. -/
structure Io where
  sent : List (List Nat)
  reads : Nat
  closed : Bool
deriving DecidableEq

/-- Where a gripper operation stands once its loop has run for the given number of
iterations: it has returned a value, it has hit undefined behaviour inside `bufcmp`, or
it is still inside `while (1)`. -/
inductive Outcome
  | returned (v : Int) (io : Io)
  | undefined (io : Io)
  | polling (io : Io)
deriving DecidableEq

/-- The `while (1)` loop shared by the three operations: write the status request, read
the reply into `recv_buf`, leave the loop when `bufcmp` returns 0.  The first argument
bounds the number of iterations that are run. -/
def poll (dev : Dev) (request expected : List Nat) : Nat → Io → List Nat → Outcome
  | 0, io, _ => .polling io
  | fuel + 1, io, recv_buf =>
    let io1 : Io := { io with sent := io.sent ++ [request] }
    if dev.write io.sent.length < 0 then .returned (-1) io1
    else
      let io2 : Io := { io1 with reads := io.reads + 1 }
      match dev.read io.reads with
      | none => .returned (-1) io2
      | some data =>
        let recv_buf1 := read_into BUF_SIZE recv_buf data
        match bufcmp expected recv_buf1 with
        | none => .undefined io2
        | some r =>
          if r = 0 then .returned 0 { io2 with closed := true }
          else poll dev request expected fuel io2 recv_buf1

/-- C `gripper_activate` (with `DEBUG` defined, as in the source): `stack` is what the
uninitialised `recv_buf` holds on entry. -/
def gripper_activate (dev : Dev) (stack : List Nat) (fuel : Nat) : Outcome :=
  if open_modbus dev < 0 then .returned (-1) ⟨[], 0, false⟩
  else if dev.write 0 < 0 then .returned (-1) ⟨[activate], 0, false⟩
  else
    match dev.read 0 with
    | none => .returned (-1) ⟨[activate], 1, false⟩
    | some data =>
      poll dev read_gripper_status activate_success fuel ⟨[activate], 1, false⟩
        (read_into BUF_SIZE stack data)

/-- C `gripper_close`. -/
def gripper_close (dev : Dev) (stack : List Nat) (fuel : Nat) : Outcome :=
  if open_modbus dev < 0 then .returned (-1) ⟨[], 0, false⟩
  else if dev.write 0 < 0 then .returned (-1) ⟨[close_with_full_speed_full_force], 0, false⟩
  else
    poll dev read_gripper_status grip_is_completed fuel
      ⟨[close_with_full_speed_full_force], 0, false⟩ stack

/-- C `gripper_open`. -/
def gripper_open (dev : Dev) (stack : List Nat) (fuel : Nat) : Outcome :=
  if open_modbus dev < 0 then .returned (-1) ⟨[], 0, false⟩
  else if dev.write 0 < 0 then .returned (-1) ⟨[open_with_full_speed_full_force], 0, false⟩
  else
    poll dev read_until_open_completed open_is_completed fuel
      ⟨[open_with_full_speed_full_force], 0, false⟩ stack

/-! ### Vocabulary for statements about the three operations -/

/-- The three gripper operations. -/
inductive Op
  | activation
  | closing
  | opening
deriving DecidableEq

/-- The operation as a function of the device, the initial `recv_buf` and the number of
loop iterations run. -/
def Op.run : Op → Dev → List Nat → Nat → Outcome
  | .activation => gripper_activate
  | .closing => gripper_close
  | .opening => gripper_open

/-- The command frame an operation writes first. -/
def Op.command : Op → List Nat
  | .activation => activate
  | .closing => close_with_full_speed_full_force
  | .opening => open_with_full_speed_full_force

/-- The status request an operation writes on every poll. -/
def Op.request : Op → List Nat
  | .activation => read_gripper_status
  | .closing => read_gripper_status
  | .opening => read_until_open_completed

/-- The frame an operation compares every reply with. -/
def Op.expected : Op → List Nat
  | .activation => activate_success
  | .closing => grip_is_completed
  | .opening => open_is_completed

/-- The number of `read` calls an operation makes before its loop. -/
def Op.skip : Op → Nat
  | .activation => 1
  | .closing => 0
  | .opening => 0

/-- Contents of `recv_buf` after the first `k` successful `read` calls. -/
def recv_buf_after (dev : Dev) (stack : List Nat) : Nat → List Nat
  | 0 => stack
  | k + 1 =>
    match dev.read k with
    | some data => read_into BUF_SIZE (recv_buf_after dev stack k) data
    | none => recv_buf_after dev stack k

/-- The verdict of `bufcmp` on poll `k` (counted from 0) of an operation. -/
def Op.verdict (op : Op) (dev : Dev) (stack : List Nat) (k : Nat) : Option Int :=
  bufcmp op.expected (recv_buf_after dev stack (op.skip + k + 1))

/-- Poll `k` of an operation goes through and the reply is judged different: the write
and the read succeed and `bufcmp` returns 1. -/
def Op.busy_at (op : Op) (dev : Dev) (stack : List Nat) (k : Nat) : Prop :=
  0 ≤ dev.write (k + 1) ∧ (dev.read (op.skip + k)).isSome = true ∧
    op.verdict dev stack k = some 1

/-- Everything before the loop of an operation succeeds. -/
def Op.started (op : Op) (dev : Dev) : Prop :=
  0 ≤ open_modbus dev ∧ 0 ≤ dev.write 0 ∧ ∀ j < op.skip, (dev.read j).isSome = true

/-! ### Buffers longer than a C `int` can count -/

/-- The reply of a gripper that is still activating. -/
def busy_reply : List Nat := [0x09, 0x03, 0x02, 0x11, 0x00, 0x55, 0xd5]

/-- The reply `activate` is acknowledged with. -/
def activate_ack : List Nat := [0x09, 0x10, 0x03, 0xe8, 0x00, 0x03, 0x01, 0x30]

/-- A transport stub for `gripper_activate`: the port opens, every write succeeds, the
read that follows `activate` is answered with `ack`, the first two status polls with
`busy` and every later one with `activate_success`. -/
def activation_stub (ack busy : List Nat) : Dev where
  open_fd := 3
  cfsetispeed := 0
  cfsetospeed := 0
  tcsetattr := 0
  write := fun k => if k = 0 then 15 else 8
  read := fun k => if k = 0 then some ack else if k ≤ 2 then some busy
    else some activate_success

/-- A transport stub whose gripper never completes: the port opens, every read is
answered with `busy_reply`, and every write succeeds except write number `bad`. -/
def stuck_stub (bad : Option Nat) : Dev where
  open_fd := 3
  cfsetispeed := 0
  cfsetospeed := 0
  tcsetattr := 0
  write := fun k => if some k = bad then -1 else 8
  read := fun _ => some busy_reply

end ModbusRtu

namespace ModbusTcp

/-! ## `modbus_tcp.c` -/

def BUF_SIZE : Nat := 1024

def REG_NUM : Nat := 6

def pos_req_frm : List Nat :=
  [0x00, 0x01, 0x00, 0x00, 0x00, 0x06, 0x00, 0x04, 0x01, 0x90, 0x00, 0x06]

def wrist_req_frm : List Nat :=
  [0x00, 0x01, 0x00, 0x00, 0x00, 0x06, 0x00, 0x04, 0x01, 0x0e, 0x00, 0x06]

/-- The two request frames of `modbus_tcp.c`. -/
def tcp_frames : List (List Nat) := [pos_req_frm, wrist_req_frm]

/-- The protocol identifier of an MBAP frame (bytes 2-3, big-endian). -/
def mbap_protocol_id (frame : List Nat) : Nat := frame.getD 2 0 * 256 + frame.getD 3 0

/-- The length field of an MBAP frame (bytes 4-5, big-endian). -/
def mbap_length (frame : List Nat) : Nat := frame.getD 4 0 * 256 + frame.getD 5 0

/-- The function-code byte of an MBAP frame,
`txn_id(2) | protocol_id(2) | length(2) | unit_id(1) | function_code(1) | ...`. -/
def mbap_function_code (frame : List Nat) : Option Nat := frame[7]?

/-- The register-count field of a read request (its last two bytes, big-endian). -/
def register_count (frame : List Nat) : Nat :=
  frame.getD (frame.length - 2) 0 * 256 + frame.getD (frame.length - 1) 0

/-- The connected socket as the program sees it: the result of the `write` call and of
the `read` call (`none` is a negative result, `some data` delivers `data`). -/
structure Sock where
  write : Int
  read : Option (List Nat)

/-- Conversion of an integer to a 16-bit C `short` (two's complement wrap). -/
def to_short (n : Int) : Int := (n + 32768) % 65536 - 32768

/-- The `for (int i = 0; i < REG_NUM; ++i)` loop of `read_pos` and `read_wrist`: the
first argument is the number of iterations left, the second is `i`. -/
def decode_for (recvbuf : List Nat) : Nat → Nat → List Int → List Int
  | 0, _, recv_value => recv_value
  | k + 1, i, recv_value =>
    let index := 9 + 2 * i
    decode_for recvbuf k (i + 1)
      (recv_value.set i
        (to_short ((recvbuf.getD index 0 : Nat) * 256 + (recvbuf.getD (index + 1) 0 : Nat))))

/-- What a read operation leaves behind: its return value, the six-entry array
`recv_value`, the frames written and whether it closed the socket. -/
structure Reply where
  ret : Int
  recv_value : List Int
  sent : List (List Nat)
  closed : Bool
deriving DecidableEq

/-- C `read_pos`: `stack` is what the uninitialised `recvbuf` holds on entry. -/
def read_pos (sock : Sock) (stack : List Nat) (recv_value : List Int) : Reply :=
  if sock.write < 0 then ⟨1, recv_value, [pos_req_frm], false⟩
  else
    match sock.read with
    | none => ⟨1, recv_value, [pos_req_frm], false⟩
    | some data =>
      let res := (data.take BUF_SIZE).length
      let recvbuf := read_into BUF_SIZE stack data
      if res ≥ 21 then ⟨0, decode_for recvbuf REG_NUM 0 recv_value, [pos_req_frm], false⟩
      else ⟨1, recv_value, [pos_req_frm], false⟩

/-- C `read_wrist`: as `read_pos` with the other request frame, and the socket is closed
on success. -/
def read_wrist (sock : Sock) (stack : List Nat) (recv_value : List Int) : Reply :=
  if sock.write < 0 then ⟨1, recv_value, [wrist_req_frm], false⟩
  else
    match sock.read with
    | none => ⟨1, recv_value, [wrist_req_frm], false⟩
    | some data =>
      let res := (data.take BUF_SIZE).length
      let recvbuf := read_into BUF_SIZE stack data
      if res ≥ 21 then ⟨0, decode_for recvbuf REG_NUM 0 recv_value, [wrist_req_frm], true⟩
      else ⟨1, recv_value, [wrist_req_frm], false⟩

/-! ### Socket stubs -/

/-- A full reply to `pos_req_frm`: MBAP header, byte count 12, and the six registers
0x0123, 0xff38, 0x0064, 0x0c45, 0xf3bb, 0x0000. -/
def pos_reply : List Nat :=
  [0x00, 0x01, 0x00, 0x00, 0x00, 0x0f, 0x00, 0x04, 0x0c,
   0x01, 0x23, 0xff, 0x38, 0x00, 0x64, 0x0c, 0x45, 0xf3, 0xbb, 0x00, 0x00]

/-- An exception reply, 9 bytes long. -/
def exception_reply : List Nat :=
  [0x00, 0x01, 0x00, 0x00, 0x00, 0x03, 0x00, 0x84, 0x02]

end ModbusTcp

/-! # Theorems -/

namespace ModbusRtu

/-! ## `bufcmp` -/

/-- C1: `bufcmp` reports "same" on buffers that are not byte-for-byte equal.  For each
expected-response frame there is a 512-byte receive buffer whose first bytes differ from
the frame and on which `bufcmp` returns 0: 09 03 02 00 01 98 45 against
`activate_success`, 09 03 02 f9 00 00 00 against `grip_is_completed`, and
09 03 06 f9 00 00 00 0d 00 56 4c against `open_is_completed`. -/
theorem bufcmp_same_on_different_bytes :
    (bufcmp activate_success
        ([0x09, 0x03, 0x02, 0x00, 0x01, 0x98, 0x45] ++ List.replicate 505 0) = some 0 ∧
      ([0x09, 0x03, 0x02, 0x00, 0x01, 0x98, 0x45] ++ List.replicate 505 0).take
        activate_success.length ≠ activate_success) ∧
    (bufcmp grip_is_completed
        ([0x09, 0x03, 0x02, 0xf9, 0x00, 0x00, 0x00] ++ List.replicate 505 0) = some 0 ∧
      ([0x09, 0x03, 0x02, 0xf9, 0x00, 0x00, 0x00] ++ List.replicate 505 0).take
        grip_is_completed.length ≠ grip_is_completed) ∧
    (bufcmp open_is_completed
        ([0x09, 0x03, 0x06, 0xf9, 0x00, 0x00, 0x00, 0x0d, 0x00, 0x56, 0x4c] ++
          List.replicate 501 0) = some 0 ∧
      ([0x09, 0x03, 0x06, 0xf9, 0x00, 0x00, 0x00, 0x0d, 0x00, 0x56, 0x4c] ++
          List.replicate 501 0).take open_is_completed.length ≠ open_is_completed) := by
  decide

/-- The half of the contract of `bufcmp` that the code keeps: a receive buffer that starts
with the bytes of an expected frame is judged the same. -/
theorem bufcmp_same_on_equal_bytes (rest : List Nat) :
    bufcmp activate_success (activate_success ++ rest) = some 0 ∧
    bufcmp grip_is_completed (grip_is_completed ++ rest) = some 0 ∧
    bufcmp open_is_completed (open_is_completed ++ rest) = some 0 := by
  refine ⟨?_, ?_, ?_⟩ <;>
    simp [activate_success, grip_is_completed, open_is_completed, bufcmp, strlen, to_int,
      bufcmp_for]

/-! ## The frame tables -/

/-- A frame passes `rtu_frame_ok` exactly when it is a body followed by the two bytes of
the body's checksum, low byte first. -/
theorem rtu_frame_ok_iff (frame : List Nat) :
    rtu_frame_ok frame = true ↔
      ∃ body, frame = body ++ [crc16 body % 256, crc16 body / 256] := by
  constructor
  · intro h
    simp only [rtu_frame_ok, Bool.and_eq_true, decide_eq_true_eq, beq_iff_eq] at h
    refine ⟨frame.take (frame.length - 2), ?_⟩
    rw [← h.2, List.take_append_drop]
  · rintro ⟨body, rfl⟩
    simp [rtu_frame_ok]

/-- C3: each of the nine frame tables of `modbus_rtu.c` ends in the Modbus CRC-16 of the
bytes before it, low byte first; and `crc16 [09 03 07 d0 00 01] = 0xcf85`, which is what
`read_gripper_status` ends in (0x85, 0xcf). -/
theorem rtu_frames_carry_crc16 :
    (∀ frame ∈ rtu_frames, rtu_frame_ok frame = true) ∧
    crc16 [0x09, 0x03, 0x07, 0xd0, 0x00, 0x01] = 0xcf85 ∧
    read_gripper_status = [0x09, 0x03, 0x07, 0xd0, 0x00, 0x01] ++ [0x85, 0xcf] := by
  decide

end ModbusRtu

namespace ModbusTcp

/-! ## The request frames of `modbus_tcp.c` -/

/-- C8: in both request frames the protocol identifier is 0, the length field equals the
number of bytes behind it, which is one more than the bytes from the function code to
the end and is 6, and the register count in the last two bytes is `REG_NUM` = 6. -/
theorem tcp_frames_mbap_ok :
    (tcp_frames = [pos_req_frm, wrist_req_frm] ∧ REG_NUM = 6) ∧
    ∀ frame ∈ tcp_frames,
      mbap_protocol_id frame = 0 ∧
      mbap_length frame = (frame.drop 6).length ∧
      mbap_length frame = 1 + (frame.drop 7).length ∧
      mbap_length frame = 6 ∧
      register_count frame = REG_NUM := by
  decide

/-- C7 as stated fails: the function-code byte of `pos_req_frm` is 0x04, so not every
frame of the two programs carries 0x03 or 0x10. -/
theorem function_codes_not_only_03_10 :
    ¬ ((∀ frame ∈ ModbusRtu.rtu_frames,
          ModbusRtu.rtu_function_code frame = some 0x03 ∨
          ModbusRtu.rtu_function_code frame = some 0x10) ∧
       (∀ frame ∈ tcp_frames,
          mbap_function_code frame = some 0x03 ∨ mbap_function_code frame = some 0x10)) := by
  decide

/-- C7, amended: every RTU frame table of `modbus_rtu.c` carries function code 0x03 or
0x10, and both TCP request frames of `modbus_tcp.c` carry function code 0x04. -/
theorem function_codes_used :
    (∀ frame ∈ ModbusRtu.rtu_frames,
        ModbusRtu.rtu_function_code frame = some 0x03 ∨
        ModbusRtu.rtu_function_code frame = some 0x10) ∧
    (∀ frame ∈ tcp_frames, mbap_function_code frame = some 0x04) := by
  decide

end ModbusTcp

namespace ModbusRtu

/-! ## The polling loop, one iteration at a time -/

theorem poll_write_fails (dev : Dev) (request expected : List Nat) (fuel : Nat) (io : Io)
    (recv_buf : List Nat) (hw : dev.write io.sent.length < 0) :
    poll dev request expected (fuel + 1) io recv_buf =
      .returned (-1) ⟨io.sent ++ [request], io.reads, io.closed⟩ := by
  simp [poll, hw]

theorem poll_read_fails (dev : Dev) (request expected : List Nat) (fuel : Nat) (io : Io)
    (recv_buf : List Nat) (hw : 0 ≤ dev.write io.sent.length)
    (hr : dev.read io.reads = none) :
    poll dev request expected (fuel + 1) io recv_buf =
      .returned (-1) ⟨io.sent ++ [request], io.reads + 1, io.closed⟩ := by
  simp [poll, not_lt.mpr hw, hr]

theorem poll_same (dev : Dev) (request expected : List Nat) (fuel : Nat) (io : Io)
    (recv_buf data : List Nat) (hw : 0 ≤ dev.write io.sent.length)
    (hr : dev.read io.reads = some data)
    (hb : bufcmp expected (read_into BUF_SIZE recv_buf data) = some 0) :
    poll dev request expected (fuel + 1) io recv_buf =
      .returned 0 ⟨io.sent ++ [request], io.reads + 1, true⟩ := by
  simp [poll, not_lt.mpr hw, hr, hb]

theorem poll_undefined (dev : Dev) (request expected : List Nat) (fuel : Nat) (io : Io)
    (recv_buf data : List Nat) (hw : 0 ≤ dev.write io.sent.length)
    (hr : dev.read io.reads = some data)
    (hb : bufcmp expected (read_into BUF_SIZE recv_buf data) = none) :
    poll dev request expected (fuel + 1) io recv_buf =
      .undefined ⟨io.sent ++ [request], io.reads + 1, io.closed⟩ := by
  simp [poll, not_lt.mpr hw, hr, hb]

theorem poll_different (dev : Dev) (request expected : List Nat) (fuel : Nat) (io : Io)
    (recv_buf data : List Nat) (r : Int) (hw : 0 ≤ dev.write io.sent.length)
    (hr : dev.read io.reads = some data)
    (hb : bufcmp expected (read_into BUF_SIZE recv_buf data) = some r) (hr0 : r ≠ 0) :
    poll dev request expected (fuel + 1) io recv_buf =
      poll dev request expected fuel ⟨io.sent ++ [request], io.reads + 1, io.closed⟩
        (read_into BUF_SIZE recv_buf data) := by
  simp [poll, not_lt.mpr hw, hr, hb, hr0]

theorem recv_buf_after_succ (dev : Dev) (stack data : List Nat) (k : Nat)
    (hr : dev.read k = some data) :
    recv_buf_after dev stack (k + 1) = read_into BUF_SIZE (recv_buf_after dev stack k) data := by
  simp [recv_buf_after, hr]

/-- After `n` polls that all go through and are judged different the loop stands where
it started, `n` status requests and `n` reads later. -/
theorem poll_after_busy (dev : Dev) (request expected stack : List Nat) (n : Nat) :
    ∀ (fuel : Nat) (io : Io),
      (∀ k < n, 0 ≤ dev.write (io.sent.length + k) ∧
        (dev.read (io.reads + k)).isSome = true ∧
        bufcmp expected (recv_buf_after dev stack (io.reads + k + 1)) = some 1) →
      poll dev request expected (n + fuel) io (recv_buf_after dev stack io.reads) =
        poll dev request expected fuel
          ⟨io.sent ++ List.replicate n request, io.reads + n, io.closed⟩
          (recv_buf_after dev stack (io.reads + n)) := by
  induction n with
  | zero => intro fuel io _; simp
  | succ n ih =>
    intro fuel io h
    obtain ⟨hw, hr, hb⟩ := h 0 (by omega)
    simp only [Nat.add_zero] at hw hr hb
    obtain ⟨data, hdata⟩ := Option.isSome_iff_exists.mp hr
    rw [recv_buf_after_succ dev stack data io.reads hdata] at hb
    rw [show n + 1 + fuel = (n + fuel) + 1 by omega,
      poll_different dev request expected (n + fuel) io _ data 1 hw hdata hb (by decide),
      ← recv_buf_after_succ dev stack data io.reads hdata]
    have hrec := ih fuel ⟨io.sent ++ [request], io.reads + 1, io.closed⟩ (by
      intro k hk
      obtain ⟨hw2, hr2, hb2⟩ := h (k + 1) (by omega)
      refine ⟨?_, ?_, ?_⟩
      · simpa [Nat.add_assoc, Nat.add_comm 1 k] using hw2
      · simpa [Nat.add_assoc, Nat.add_comm 1 k] using hr2
      · simpa [Nat.add_assoc, Nat.add_comm 1 k] using hb2)
    simp only at hrec
    rw [hrec]
    simp [List.replicate_succ, Nat.add_assoc, Nat.add_comm 1 n]

/-- The loop returns only -1 or 0: -1 at the first write or read that fails, with no
call after it, and 0 right after the first poll whose reply `bufcmp` judged the same as
the expected frame, every call up to there having succeeded. -/
theorem poll_returned (dev : Dev) (request expected stack : List Nat) (fuel : Nat) :
    ∀ (io : Io) (v : Int) (out : Io),
      poll dev request expected fuel io (recv_buf_after dev stack io.reads) = .returned v out →
      (v = -1 ∧ ∃ n,
        (∀ k < n, 0 ≤ dev.write (io.sent.length + k) ∧
          (dev.read (io.reads + k)).isSome = true) ∧
        ((dev.write (io.sent.length + n) < 0 ∧
            out = ⟨io.sent ++ List.replicate (n + 1) request, io.reads + n, io.closed⟩) ∨
          (0 ≤ dev.write (io.sent.length + n) ∧ dev.read (io.reads + n) = none ∧
            out = ⟨io.sent ++ List.replicate (n + 1) request, io.reads + n + 1,
              io.closed⟩))) ∨
      (v = 0 ∧ ∃ n,
        out = ⟨io.sent ++ List.replicate (n + 1) request, io.reads + n + 1, true⟩ ∧
        (∀ k ≤ n, 0 ≤ dev.write (io.sent.length + k) ∧
          (dev.read (io.reads + k)).isSome = true) ∧
        bufcmp expected (recv_buf_after dev stack (io.reads + n + 1)) = some 0) := by
  induction fuel with
  | zero => intro io v out h; simp [poll] at h
  | succ fuel ih =>
    intro io v out h
    by_cases hw : dev.write io.sent.length < 0
    · rw [poll_write_fails dev request expected fuel io _ hw] at h
      injection h with hv hout
      exact Or.inl ⟨hv.symm, 0, by simp, Or.inl ⟨by simpa using hw, by rw [← hout]; simp⟩⟩
    · have hw2 : 0 ≤ dev.write io.sent.length := not_lt.mp hw
      cases hr : dev.read io.reads with
      | none =>
        rw [poll_read_fails dev request expected fuel io _ hw2 hr] at h
        injection h with hv hout
        exact Or.inl ⟨hv.symm, 0, by simp,
          Or.inr ⟨by simpa using hw2, by simpa using hr, by rw [← hout]; simp⟩⟩
      | some data =>
        have hbuf := recv_buf_after_succ dev stack data io.reads hr
        have hstep : ∀ n k, k ≤ n + 1 →
            (∀ j ≤ n, 0 ≤ dev.write (io.sent.length + 1 + j) ∧
              (dev.read (io.reads + 1 + j)).isSome = true) →
            0 ≤ dev.write (io.sent.length + k) ∧ (dev.read (io.reads + k)).isSome = true := by
          intro n k hk hio
          rcases Nat.eq_zero_or_pos k with hk0 | hkpos
          · subst hk0
            simp [hw2, hr]
          · obtain ⟨j, rfl⟩ : ∃ j, k = j + 1 := ⟨k - 1, by omega⟩
            have := hio j (by omega)
            simpa [Nat.add_assoc, Nat.add_comm 1 j] using this
        cases hb : bufcmp expected
            (read_into BUF_SIZE (recv_buf_after dev stack io.reads) data) with
        | none =>
          rw [poll_undefined dev request expected fuel io _ data hw2 hr hb] at h
          cases h
        | some r =>
          by_cases hr0 : r = 0
          · subst hr0
            rw [poll_same dev request expected fuel io _ data hw2 hr hb] at h
            injection h with hv hout
            refine Or.inr ⟨hv.symm, 0, ?_, ?_, ?_⟩
            · rw [← hout]; simp
            · intro k hk
              have hk0 : k = 0 := by omega
              subst hk0
              simp [hw2, hr]
            · simpa [hbuf] using hb
          · rw [poll_different dev request expected fuel io _ data r hw2 hr hb hr0,
              ← hbuf] at h
            rcases ih ⟨io.sent ++ [request], io.reads + 1, io.closed⟩ v out h with
              ⟨hv, n, hio, hfail⟩ | ⟨hv, n, hout, hio, hsame⟩
            · refine Or.inl ⟨hv, n + 1, ?_, ?_⟩
              · intro k hk
                rcases Nat.eq_zero_or_pos n with hn0 | hnpos
                · subst hn0
                  have hk0 : k = 0 := by omega
                  subst hk0
                  simp [hw2, hr]
                · obtain ⟨m, rfl⟩ : ∃ m, n = m + 1 := ⟨n - 1, by omega⟩
                  apply hstep m k (by omega)
                  intro j hj
                  have := hio j (by omega)
                  simpa using this
              · rcases hfail with ⟨hwf, hout⟩ | ⟨hwf, hrf, hout⟩
                · refine Or.inl ⟨?_, ?_⟩
                  · simpa [Nat.add_assoc, Nat.add_comm 1 n] using hwf
                  · rw [hout]
                    simp [List.replicate_succ, Nat.add_assoc, Nat.add_comm 1 n]
                · refine Or.inr ⟨?_, ?_, ?_⟩
                  · simpa [Nat.add_assoc, Nat.add_comm 1 n] using hwf
                  · simpa [Nat.add_assoc, Nat.add_comm 1 n] using hrf
                  · rw [hout]
                    simp [List.replicate_succ, Nat.add_assoc, Nat.add_comm 1 n]
            · refine Or.inr ⟨hv, n + 1, ?_, ?_, ?_⟩
              · rw [hout]
                simp [List.replicate_succ, Nat.add_assoc, Nat.add_comm 1 n]
              · intro k hk
                apply hstep n k hk
                intro j hj
                have := hio j hj
                simpa using this
              · simpa [Nat.add_assoc, Nat.add_comm 1 n] using hsame

theorem bufcmp_for_zero_or_one (s1 s2 : List Nat) (k : Nat) :
    ∀ i r, bufcmp_for s1 s2 k i = some r → r = 0 ∨ r = 1 := by
  induction k with
  | zero => intro i r h; simp [bufcmp_for] at h; exact Or.inl h.symm
  | succ k ih =>
    intro i r h
    simp only [bufcmp_for] at h
    split at h
    · split at h
      · simp at h; exact Or.inr h.symm
      · exact ih _ _ h
    · simp at h

theorem bufcmp_zero_or_one (s1 s2 : List Nat) (r : Int) (h : bufcmp s1 s2 = some r) :
    r = 0 ∨ r = 1 := by
  simp only [bufcmp] at h
  split at h
  · split at h
    · simp at h; exact Or.inr h.symm
    · exact bufcmp_for_zero_or_one _ _ _ _ _ h
  · simp at h

/-! ## The three operations -/

theorem run_open_fails (op : Op) (dev : Dev) (stack : List Nat) (fuel : Nat)
    (ho : open_modbus dev < 0) :
    op.run dev stack fuel = .returned (-1) ⟨[], 0, false⟩ := by
  cases op <;> simp [Op.run, gripper_activate, gripper_close, gripper_open, ho]

theorem run_command_fails (op : Op) (dev : Dev) (stack : List Nat) (fuel : Nat)
    (ho : 0 ≤ open_modbus dev) (hw : dev.write 0 < 0) :
    op.run dev stack fuel = .returned (-1) ⟨[op.command], 0, false⟩ := by
  cases op <;>
    simp [Op.run, Op.command, gripper_activate, gripper_close, gripper_open,
      not_lt.mpr ho, hw]

theorem run_first_read_fails (op : Op) (dev : Dev) (stack : List Nat) (fuel : Nat)
    (ho : 0 ≤ open_modbus dev) (hw : 0 ≤ dev.write 0)
    (hr : ∃ j < op.skip, dev.read j = none) :
    op.run dev stack fuel = .returned (-1) ⟨[op.command], op.skip, false⟩ := by
  obtain ⟨j, hj, hread⟩ := hr
  cases op
  · have hj0 : j = 0 := by simp [Op.skip] at hj; exact hj
    subst hj0
    simp [Op.run, Op.command, Op.skip, gripper_activate, not_lt.mpr ho, not_lt.mpr hw,
      hread]
  · simp [Op.skip] at hj
  · simp [Op.skip] at hj

theorem run_started (op : Op) (dev : Dev) (stack : List Nat) (fuel : Nat)
    (hs : op.started dev) :
    op.run dev stack fuel =
      poll dev op.request op.expected fuel ⟨[op.command], op.skip, false⟩
        (recv_buf_after dev stack op.skip) := by
  obtain ⟨ho, hw, hr⟩ := hs
  cases op
  · have h0 := hr 0 (by simp [Op.skip])
    obtain ⟨data, hdata⟩ := Option.isSome_iff_exists.mp h0
    simp [Op.run, Op.command, Op.request, Op.expected, Op.skip, gripper_activate,
      not_lt.mpr ho, not_lt.mpr hw, hdata, recv_buf_after]
  · simp [Op.run, Op.command, Op.request, Op.expected, Op.skip, gripper_close,
      not_lt.mpr ho, not_lt.mpr hw, recv_buf_after]
  · simp [Op.run, Op.command, Op.request, Op.expected, Op.skip, gripper_open,
      not_lt.mpr ho, not_lt.mpr hw, recv_buf_after]

/-- An operation that does not reach its loop returns -1. -/
theorem run_not_started (op : Op) (dev : Dev) (stack : List Nat) (fuel : Nat)
    (hs : ¬ op.started dev) :
    ∃ io, op.run dev stack fuel = .returned (-1) io := by
  by_cases ho : open_modbus dev < 0
  · exact ⟨_, run_open_fails op dev stack fuel ho⟩
  · by_cases hw : dev.write 0 < 0
    · exact ⟨_, run_command_fails op dev stack fuel (not_lt.mp ho) hw⟩
    · refine ⟨_, run_first_read_fails op dev stack fuel (not_lt.mp ho) (not_lt.mp hw) ?_⟩
      by_contra hno
      apply hs
      refine ⟨not_lt.mp ho, not_lt.mp hw, ?_⟩
      intro j hj
      cases hread : dev.read j with
      | none => exact absurd ⟨j, hj, hread⟩ hno
      | some d => rfl

/-- After `n` busy polls an operation stands in its loop with `n` status requests
written and `n` replies read. -/
theorem run_after_busy (op : Op) (dev : Dev) (stack : List Nat) (n fuel : Nat)
    (hs : op.started dev) (hb : ∀ k < n, op.busy_at dev stack k) :
    op.run dev stack (n + fuel) =
      poll dev op.request op.expected fuel
        ⟨op.command :: List.replicate n op.request, op.skip + n, false⟩
        (recv_buf_after dev stack (op.skip + n)) := by
  rw [run_started op dev stack _ hs]
  have h := poll_after_busy dev op.request op.expected stack n fuel
    ⟨[op.command], op.skip, false⟩ (by
      intro k hk
      obtain ⟨h1, h2, h3⟩ := hb k hk
      refine ⟨?_, h2, h3⟩
      simpa [Nat.add_comm 1 k] using h1)
  simpa using h

end ModbusRtu

namespace ModbusRtu

/-- C6: an I/O failure ends a gripper operation at once.  If `open_modbus` fails, the
operation returns -1 with nothing written or read; if the command write fails, or the
read before the loop of `gripper_activate`, it returns -1 right there; if, after `n`
polls that went through and were judged different, the status write or the read of the
next poll fails, it returns -1 with that call as the last one issued.  It returns only
-1 or 0, and 0 only when every call succeeded and `bufcmp` judged the reply of the last
poll the same as the expected frame. -/
theorem io_failure_is_fatal (op : Op) (dev : Dev) (stack : List Nat) :
    (open_modbus dev < 0 →
      ∀ fuel, op.run dev stack fuel = .returned (-1) ⟨[], 0, false⟩) ∧
    (0 ≤ open_modbus dev → dev.write 0 < 0 →
      ∀ fuel, op.run dev stack fuel = .returned (-1) ⟨[op.command], 0, false⟩) ∧
    (0 ≤ open_modbus dev → 0 ≤ dev.write 0 → (∃ j < op.skip, dev.read j = none) →
      ∀ fuel, op.run dev stack fuel = .returned (-1) ⟨[op.command], op.skip, false⟩) ∧
    (∀ n, op.started dev → (∀ k < n, op.busy_at dev stack k) → dev.write (n + 1) < 0 →
      ∀ fuel, n < fuel → op.run dev stack fuel =
        .returned (-1)
          ⟨op.command :: List.replicate (n + 1) op.request, op.skip + n, false⟩) ∧
    (∀ n, op.started dev → (∀ k < n, op.busy_at dev stack k) → 0 ≤ dev.write (n + 1) →
      dev.read (op.skip + n) = none →
      ∀ fuel, n < fuel → op.run dev stack fuel =
        .returned (-1)
          ⟨op.command :: List.replicate (n + 1) op.request, op.skip + n + 1, false⟩) ∧
    (∀ fuel v io, op.run dev stack fuel = .returned v io →
      (v = -1 ∨ v = 0) ∧
      (v = 0 → op.started dev ∧ ∃ n,
        io = ⟨op.command :: List.replicate (n + 1) op.request, op.skip + n + 1, true⟩ ∧
        (∀ k ≤ n, 0 ≤ dev.write (k + 1) ∧ (dev.read (op.skip + k)).isSome = true) ∧
        op.verdict dev stack n = some 0)) := by
  refine ⟨fun ho fuel => run_open_fails op dev stack fuel ho,
    fun ho hw fuel => run_command_fails op dev stack fuel ho hw,
    fun ho hw hr fuel => run_first_read_fails op dev stack fuel ho hw hr, ?_, ?_, ?_⟩
  · intro n hs hb hw fuel hfuel
    obtain ⟨m, rfl⟩ : ∃ m, fuel = n + (m + 1) := ⟨fuel - n - 1, by omega⟩
    rw [run_after_busy op dev stack n (m + 1) hs hb, poll_write_fails]
    · simp [List.replicate_succ']
    · simpa [Nat.add_comm 1 n] using hw
  · intro n hs hb hw hr fuel hfuel
    obtain ⟨m, rfl⟩ : ∃ m, fuel = n + (m + 1) := ⟨fuel - n - 1, by omega⟩
    rw [run_after_busy op dev stack n (m + 1) hs hb, poll_read_fails]
    · simp [List.replicate_succ']
    · simpa [Nat.add_comm 1 n] using hw
    · simpa using hr
  · intro fuel v io h
    by_cases hs : op.started dev
    · rw [run_started op dev stack fuel hs] at h
      rcases poll_returned dev op.request op.expected stack fuel _ v io h with
        ⟨hv, _⟩ | ⟨hv, n, hout, hio, hsame⟩
      · exact ⟨Or.inl hv, fun h0 => by rw [hv] at h0; exact absurd h0 (by decide)⟩
      · refine ⟨Or.inr hv, fun _ => ⟨hs, n, ?_, ?_, ?_⟩⟩
        · simpa using hout
        · intro k hk
          have := hio k hk
          simpa [Nat.add_comm 1 k] using this
        · simpa [Op.verdict] using hsame
    · obtain ⟨io2, hio2⟩ := run_not_started op dev stack fuel hs
      rw [hio2] at h
      injection h with hv _
      exact ⟨Or.inl hv.symm, fun h0 => by rw [← hv] at h0; exact absurd h0 (by decide)⟩

/-- C10: once the port is open, if every write and every read succeeds and `bufcmp`
never judges a reply the same as the expected frame, then after any number `n` of
status polls the operation has not returned; and as long as `bufcmp` stays defined it is
still inside its loop, having written the command and exactly `n` status requests. -/
theorem polling_never_returns (op : Op) (dev : Dev) (stack : List Nat)
    (ho : 0 ≤ open_modbus dev) (hw : ∀ k, 0 ≤ dev.write k)
    (hr : ∀ k, (dev.read k).isSome = true)
    (hne : ∀ k, op.verdict dev stack k ≠ some 0) (n : Nat) :
    (∀ v io, op.run dev stack n ≠ .returned v io) ∧
    ((∀ k < n, op.verdict dev stack k ≠ none) →
      op.run dev stack n =
        .polling ⟨op.command :: List.replicate n op.request, op.skip + n, false⟩) := by
  have hs : op.started dev := ⟨ho, hw 0, fun j _ => hr j⟩
  constructor
  · intro v io h
    rw [run_started op dev stack n hs] at h
    rcases poll_returned dev op.request op.expected stack n _ v io h with
      ⟨_, m, _, hfail⟩ | ⟨_, m, _, _, hsame⟩
    · rcases hfail with ⟨hwf, _⟩ | ⟨_, hrf, _⟩
      · exact absurd (hw _) (not_le.mpr hwf)
      · have := hr (op.skip + m)
        simp only at hrf
        rw [hrf] at this
        simp at this
    · exact hne m (by simpa [Op.verdict] using hsame)
  · intro hdef
    have hb : ∀ k < n, op.busy_at dev stack k := by
      intro k hk
      refine ⟨hw _, hr _, ?_⟩
      cases hv : op.verdict dev stack k with
      | none => exact absurd hv (hdef k hk)
      | some r =>
        rcases bufcmp_zero_or_one _ _ r hv with h0 | h1
        · rw [h0] at hv
          exact absurd hv (hne k)
        · rw [h1]
    have h := run_after_busy op dev stack n 0 hs hb
    simpa [poll] using h

end ModbusRtu

namespace ModbusRtu

/-! ## Scenarios on the transport stubs -/

theorem read_into_busy_reply (buf : List Nat) :
    read_into BUF_SIZE buf busy_reply =
      0x09 :: 0x03 :: 0x02 :: 0x11 :: 0x00 :: 0x55 :: 0xd5 :: buf.drop 7 := by
  have h : busy_reply.take BUF_SIZE = busy_reply := by decide
  simp [read_into, h]
  simp [busy_reply]

theorem read_into_activate_success (buf : List Nat) :
    read_into BUF_SIZE buf activate_success =
      0x09 :: 0x03 :: 0x02 :: 0x00 :: 0x00 :: 0x59 :: 0x85 :: buf.drop 7 := by
  have h : activate_success.take BUF_SIZE = activate_success := by decide
  simp [read_into, h]
  simp [activate_success]

/-- Whatever the receive buffer held before, `busy_reply` in it is judged different from
each of the three expected frames. -/
theorem bufcmp_expected_busy_reply (op : Op) (buf : List Nat) :
    bufcmp op.expected (read_into BUF_SIZE buf busy_reply) = some 1 := by
  rw [read_into_busy_reply]
  cases op <;>
    simp [Op.expected, activate_success, grip_is_completed, open_is_completed, bufcmp,
      strlen, to_int, bufcmp_for]

/-- Whatever the receive buffer held before, the bytes of `activate_success` in it are
judged the same as `activate_success`. -/
theorem bufcmp_activate_success_reply (buf : List Nat) :
    bufcmp activate_success (read_into BUF_SIZE buf activate_success) = some 0 := by
  rw [read_into_activate_success]
  simp [activate_success, bufcmp, strlen, to_int, bufcmp_for]

/-- The activation scenario with `busy_reply` as the busy reply: whatever the first read
delivers and whatever `recv_buf` held on entry, the loop ends on the third status read,
with three status requests written, and `gripper_activate` returns 0. -/
theorem activation_scenario_busy_reply (ack stack : List Nat) (fuel : Nat)
    (hfuel : 3 ≤ fuel) :
    gripper_activate (activation_stub ack busy_reply) stack fuel =
      .returned 0
        ⟨[activate, read_gripper_status, read_gripper_status, read_gripper_status], 4,
          true⟩ := by
  obtain ⟨m, rfl⟩ : ∃ m, fuel = m + 1 + 1 + 1 := ⟨fuel - 3, by omega⟩
  have hopen : ¬ open_modbus (activation_stub ack busy_reply) < 0 := by
    simp [open_modbus, activation_stub]
  have hw : ∀ k, 0 ≤ (activation_stub ack busy_reply).write k := by
    intro k
    simp only [activation_stub]
    split <;> decide
  simp only [gripper_activate, if_neg hopen, if_neg (not_lt.mpr (hw 0))]
  have hr0 : (activation_stub ack busy_reply).read 0 = some ack := by
    simp [activation_stub]
  simp only [hr0]
  have hb : ∀ buf, bufcmp activate_success (read_into BUF_SIZE buf busy_reply) = some 1 :=
    fun buf => bufcmp_expected_busy_reply .activation buf
  rw [poll_different _ _ _ _ _ _ busy_reply 1 (hw _) (by simp [activation_stub])
      (hb _) (by decide),
    poll_different _ _ _ _ _ _ busy_reply 1 (hw _) (by simp [activation_stub])
      (hb _) (by decide),
    poll_same _ _ _ _ _ _ activate_success (hw _) (by simp [activation_stub])
      (bufcmp_activate_success_reply _)]
  simp

/-- C2: the activation scenario run with the busy reply 09 03 02 00 01 98 45, which
differs from `activate_success` in its fifth byte: the first status read already ends
the loop, one status request is written instead of three, and `gripper_activate`
returns 0 while the gripper is still busy. -/
theorem activation_ends_on_first_busy_reply :
    [0x09, 0x03, 0x02, 0x00, 0x01, 0x98, 0x45] ≠ activate_success ∧
    gripper_activate
        (activation_stub activate_ack [0x09, 0x03, 0x02, 0x00, 0x01, 0x98, 0x45])
        (List.replicate BUF_SIZE 0) 3 =
      .returned 0 ⟨[activate, read_gripper_status], 2, true⟩ := by
  decide

/-- C6, on `gripper_close` against a stub whose third write fails: one poll goes
through, the status write of the second poll fails, and the operation returns -1 with
that write as its last call. -/
theorem io_failure_is_fatal_witness :
    (Op.closing.started (stuck_stub (some 2)) ∧
      (∀ k < 1, Op.closing.busy_at (stuck_stub (some 2)) (List.replicate BUF_SIZE 0) k) ∧
      (stuck_stub (some 2)).write (1 + 1) < 0) ∧
    gripper_close (stuck_stub (some 2)) (List.replicate BUF_SIZE 0) 5 =
      .returned (-1)
        ⟨[close_with_full_speed_full_force, read_gripper_status, read_gripper_status], 1,
          false⟩ :=
  have hs : Op.closing.started (stuck_stub (some 2)) :=
    ⟨by decide, by decide, fun j hj => absurd hj (by simp [Op.skip])⟩
  have hb : ∀ k < 1,
      Op.closing.busy_at (stuck_stub (some 2)) (List.replicate BUF_SIZE 0) k := by
    intro k hk
    have hk0 : k = 0 := by omega
    subst hk0
    exact ⟨by decide, by decide, bufcmp_expected_busy_reply .closing _⟩
  ⟨⟨hs, hb, by decide⟩,
   (io_failure_is_fatal .closing (stuck_stub (some 2)) (List.replicate BUF_SIZE 0)).2.2.2.1
     1 hs hb (by decide) 5 (by decide)⟩

/-- C10, on `gripper_activate` against a stub that answers every poll with
`busy_reply`: after 3 polls the operation is still in its loop with three status
requests written. -/
theorem polling_never_returns_witness :
    (0 ≤ open_modbus (stuck_stub none) ∧ (∀ k, 0 ≤ (stuck_stub none).write k) ∧
      (∀ k, ((stuck_stub none).read k).isSome = true) ∧
      (∀ k, Op.activation.verdict (stuck_stub none) (List.replicate BUF_SIZE 0) k ≠
        some 0)) ∧
    ((∀ v io, gripper_activate (stuck_stub none) (List.replicate BUF_SIZE 0) 3 ≠
        .returned v io) ∧
      ((∀ k < 3, Op.activation.verdict (stuck_stub none) (List.replicate BUF_SIZE 0) k ≠
          none) →
        gripper_activate (stuck_stub none) (List.replicate BUF_SIZE 0) 3 =
          .polling
            ⟨[activate, read_gripper_status, read_gripper_status, read_gripper_status], 4,
              false⟩)) :=
  have hw : ∀ k, 0 ≤ (stuck_stub none).write k := fun k => by simp [stuck_stub]
  have hr : ∀ k, ((stuck_stub none).read k).isSome = true := fun k => rfl
  have hne : ∀ k,
      Op.activation.verdict (stuck_stub none) (List.replicate BUF_SIZE 0) k ≠ some 0 := by
    intro k
    have h : Op.activation.verdict (stuck_stub none) (List.replicate BUF_SIZE 0) k =
        some 1 := bufcmp_expected_busy_reply .activation _
    rw [h]
    decide
  ⟨⟨by decide, hw, hr, hne⟩,
   polling_never_returns .activation (stuck_stub none) (List.replicate BUF_SIZE 0)
     (by decide) hw hr hne 3⟩

end ModbusRtu

namespace ModbusTcp

/-! ## `read_pos` and `read_wrist` -/

theorem to_short_range (n : Int) : -32768 ≤ to_short n ∧ to_short n ≤ 32767 := by
  unfold to_short
  omega

theorem to_short_modEq (n : Int) : Int.ModEq 65536 (to_short n) n := by
  unfold Int.ModEq to_short
  omega

/-- An index below the number of received bytes reads a received byte. -/
theorem read_into_getD (count : Nat) (buf data : List Nat) (j : Nat)
    (hj : j < (data.take count).length) :
    (read_into count buf data).getD j 0 = data.getD j 0 ∧
      data[j]? = some (data.getD j 0) := by
  have hjd : j < data.length := by
    simp only [List.length_take] at hj
    omega
  have hjc : j < count := by
    simp only [List.length_take] at hj
    omega
  constructor
  · simp only [read_into, List.getD_eq_getElem?_getD]
    rw [List.getElem?_append_left hj, List.getElem?_take_of_lt hjc]
  · simp [List.getD_eq_getElem?_getD, List.getElem?_eq_getElem hjd]

/-- Entry `j` after the decoding loop has run `k` iterations from index `i`. -/
theorem decode_for_getElem (recvbuf : List Nat) (k : Nat) :
    ∀ (i : Nat) (recv_value : List Int) (j : Nat),
      (decode_for recvbuf k i recv_value)[j]? =
        if i ≤ j ∧ j < i + k ∧ j < recv_value.length then
          some (to_short ((recvbuf.getD (9 + 2 * j) 0 : Nat) * 256 +
            (recvbuf.getD (9 + 2 * j + 1) 0 : Nat)))
        else recv_value[j]? := by
  induction k with
  | zero =>
    intro i recv_value j
    have hc : ¬ (i ≤ j ∧ j < i + 0 ∧ j < recv_value.length) := by omega
    simp only [decode_for]
    rw [if_neg hc]
  | succ k ih =>
    intro i recv_value j
    simp only [decode_for]
    rw [ih]
    by_cases hji : j = i
    · subst hji
      have h1 : ¬ (j + 1 ≤ j ∧ j < j + 1 + k ∧ j < (recv_value.set j
          (to_short ((recvbuf.getD (9 + 2 * j) 0 : Nat) * 256 +
            (recvbuf.getD (9 + 2 * j + 1) 0 : Nat)))).length) := by omega
      rw [if_neg h1]
      by_cases hlen : j < recv_value.length
      · have h2 : j ≤ j ∧ j < j + (k + 1) ∧ j < recv_value.length := ⟨le_refl j, by omega, hlen⟩
        rw [if_pos h2]
        simp [List.getElem?_set, hlen]
      · have h2 : ¬ (j ≤ j ∧ j < j + (k + 1) ∧ j < recv_value.length) := by omega
        rw [if_neg h2, List.getElem?_eq_none (by rw [List.length_set]; omega),
          List.getElem?_eq_none (by omega)]
    · have hset : (recv_value.set i
          (to_short ((recvbuf.getD (9 + 2 * i) 0 : Nat) * 256 +
            (recvbuf.getD (9 + 2 * i + 1) 0 : Nat))))[j]? = recv_value[j]? := by
        rw [List.getElem?_set]
        simp [Ne.symm hji]
      rw [hset, List.length_set]
      by_cases hc : i ≤ j ∧ j < i + (k + 1) ∧ j < recv_value.length
      · have hc2 : i + 1 ≤ j ∧ j < i + 1 + k ∧ j < recv_value.length := by omega
        rw [if_pos hc, if_pos hc2]
      · have hc2 : ¬ (i + 1 ≤ j ∧ j < i + 1 + k ∧ j < recv_value.length) := by omega
        rw [if_neg hc, if_neg hc2]

/-- C4: when the request is written, the read delivers `res >= 21` bytes and
`recv_value` has its six entries, `read_pos` and `read_wrist` return 0 and, for every
`i` below 6, both offsets `9 + 2i` and `10 + 2i` are below `res`, and `recv_value[i]` is
the `short` made from the two received bytes at these offsets alone: a value between
-32768 and 32767 congruent modulo 2^16 to `recvbuf[9+2i] * 256 + recvbuf[10+2i]`. -/
theorem decode_keeps_raw_word (sock : Sock) (stack : List Nat) (recv_value : List Int)
    (data : List Nat) (hw : 0 ≤ sock.write) (hr : sock.read = some data)
    (hres : 21 ≤ (data.take BUF_SIZE).length) (hlen : recv_value.length = REG_NUM)
    (i : Nat) (hi : i < REG_NUM) :
    ∃ (hi_byte lo_byte : Nat) (v : Int),
      9 + 2 * i < (data.take BUF_SIZE).length ∧
      10 + 2 * i < (data.take BUF_SIZE).length ∧
      data[9 + 2 * i]? = some hi_byte ∧ data[10 + 2 * i]? = some lo_byte ∧
      v = to_short ((hi_byte : Int) * 256 + (lo_byte : Int)) ∧
      (read_pos sock stack recv_value).ret = 0 ∧
      (read_pos sock stack recv_value).recv_value[i]? = some v ∧
      (read_wrist sock stack recv_value).ret = 0 ∧
      (read_wrist sock stack recv_value).recv_value[i]? = some v ∧
      -32768 ≤ v ∧ v ≤ 32767 ∧
      Int.ModEq 65536 v ((hi_byte : Int) * 256 + (lo_byte : Int)) := by
  have hi6 : i < 6 := hi
  have h9 : 9 + 2 * i < (data.take BUF_SIZE).length := by omega
  have h10 : 9 + 2 * i + 1 < (data.take BUF_SIZE).length := by omega
  obtain ⟨g9, d9⟩ := read_into_getD BUF_SIZE stack data (9 + 2 * i) h9
  obtain ⟨g10, d10⟩ := read_into_getD BUF_SIZE stack data (9 + 2 * i + 1) h10
  have hcond : 0 ≤ i ∧ i < 0 + REG_NUM ∧ i < recv_value.length := by
    rw [hlen]
    simp [REG_NUM]
    exact hi6
  have hdec : (decode_for (read_into BUF_SIZE stack data) REG_NUM 0 recv_value)[i]? =
      some (to_short ((data.getD (9 + 2 * i) 0 : Nat) * 256 +
        (data.getD (9 + 2 * i + 1) 0 : Nat))) := by
    rw [decode_for_getElem, if_pos hcond, g9, g10]
  refine ⟨data.getD (9 + 2 * i) 0, data.getD (9 + 2 * i + 1) 0, _, h9, by omega, d9,
    by rw [show 10 + 2 * i = 9 + 2 * i + 1 by omega]; exact d10, rfl, ?_, ?_, ?_, ?_,
    (to_short_range _).1, (to_short_range _).2, to_short_modEq _⟩
  · simp only [read_pos, if_neg (not_lt.mpr hw), hr, ge_iff_le, if_pos hres]
  · simp only [read_pos, if_neg (not_lt.mpr hw), hr, ge_iff_le, if_pos hres]
    exact hdec
  · simp only [read_wrist, if_neg (not_lt.mpr hw), hr, ge_iff_le, if_pos hres]
  · simp only [read_wrist, if_neg (not_lt.mpr hw), hr, ge_iff_le, if_pos hres]
    exact hdec

/-- C5: `read_pos` and `read_wrist` return 0 exactly when the write succeeds, the read
succeeds and at least 21 bytes arrive; otherwise they return 1 and `recv_value` is what
it was. -/
theorem read_returns_zero_iff (sock : Sock) (stack : List Nat) (recv_value : List Int) :
    ((read_pos sock stack recv_value).ret = 0 ↔
      0 ≤ sock.write ∧ ∃ data, sock.read = some data ∧ 21 ≤ (data.take BUF_SIZE).length) ∧
    ((read_pos sock stack recv_value).ret ≠ 0 →
      (read_pos sock stack recv_value).ret = 1 ∧
      (read_pos sock stack recv_value).recv_value = recv_value) ∧
    ((read_wrist sock stack recv_value).ret = 0 ↔
      0 ≤ sock.write ∧ ∃ data, sock.read = some data ∧ 21 ≤ (data.take BUF_SIZE).length) ∧
    ((read_wrist sock stack recv_value).ret ≠ 0 →
      (read_wrist sock stack recv_value).ret = 1 ∧
      (read_wrist sock stack recv_value).recv_value = recv_value) := by
  by_cases hw : sock.write < 0
  · have hw2 : ¬ 0 ≤ sock.write := not_le.mpr hw
    simp [read_pos, read_wrist, hw, hw2]
  · have hw2 : 0 ≤ sock.write := not_lt.mp hw
    cases hr : sock.read with
    | none => simp [read_pos, read_wrist, hw, hr]
    | some data =>
      simp only [read_pos, read_wrist, if_neg hw, hr, ge_iff_le, Option.some.injEq,
        exists_eq_left']
      generalize (data.take BUF_SIZE).length = res
      by_cases hres : 21 ≤ res
      · simp [hw2, hres]
      · simp [hw2, hres]

/-- C4, on `pos_reply` at `i = 1`: the hypotheses hold, and the entry is made from the
bytes ff 38 at offsets 11 and 12. -/
theorem decode_keeps_raw_word_witness :
    ((0 : Int) ≤ 12 ∧ 21 ≤ (pos_reply.take BUF_SIZE).length ∧
      ([0, 0, 0, 0, 0, 0] : List Int).length = REG_NUM ∧ 1 < REG_NUM) ∧
    ∃ (hi_byte lo_byte : Nat) (v : Int),
      9 + 2 * 1 < (pos_reply.take BUF_SIZE).length ∧
      10 + 2 * 1 < (pos_reply.take BUF_SIZE).length ∧
      pos_reply[9 + 2 * 1]? = some hi_byte ∧ pos_reply[10 + 2 * 1]? = some lo_byte ∧
      v = to_short ((hi_byte : Int) * 256 + (lo_byte : Int)) ∧
      (read_pos ⟨12, some pos_reply⟩ (List.replicate BUF_SIZE 0) [0, 0, 0, 0, 0, 0]).ret = 0 ∧
      (read_pos ⟨12, some pos_reply⟩ (List.replicate BUF_SIZE 0)
        [0, 0, 0, 0, 0, 0]).recv_value[1]? = some v ∧
      (read_wrist ⟨12, some pos_reply⟩ (List.replicate BUF_SIZE 0)
        [0, 0, 0, 0, 0, 0]).ret = 0 ∧
      (read_wrist ⟨12, some pos_reply⟩ (List.replicate BUF_SIZE 0)
        [0, 0, 0, 0, 0, 0]).recv_value[1]? = some v ∧
      -32768 ≤ v ∧ v ≤ 32767 ∧
      Int.ModEq 65536 v ((hi_byte : Int) * 256 + (lo_byte : Int)) :=
  ⟨by decide,
   decode_keeps_raw_word ⟨12, some pos_reply⟩ (List.replicate BUF_SIZE 0)
     [0, 0, 0, 0, 0, 0] pos_reply (by decide) rfl (by decide) (by decide) 1 (by decide)⟩

/-- The six values `read_pos` decodes from `pos_reply`: words above 0x7fff come out
negative. -/
theorem read_pos_pos_reply :
    read_pos ⟨12, some pos_reply⟩ (List.replicate BUF_SIZE 0) [0, 0, 0, 0, 0, 0] =
      ⟨0, [291, -200, 100, 3141, -3141, 0], [pos_req_frm], false⟩ := by
  decide

/-- C5, on a 9-byte exception reply: fewer than 21 bytes arrive, so `read_pos` and
`read_wrist` return 1 and `recv_value` keeps its entries. -/
theorem read_returns_zero_iff_witness :
    (read_pos ⟨12, some exception_reply⟩ (List.replicate BUF_SIZE 0)
        [1, 2, 3, 4, 5, 6]).ret ≠ 0 ∧
    (read_pos ⟨12, some exception_reply⟩ (List.replicate BUF_SIZE 0)
        [1, 2, 3, 4, 5, 6]).ret = 1 ∧
    (read_pos ⟨12, some exception_reply⟩ (List.replicate BUF_SIZE 0)
        [1, 2, 3, 4, 5, 6]).recv_value = [1, 2, 3, 4, 5, 6] :=
  ⟨by decide,
   (read_returns_zero_iff ⟨12, some exception_reply⟩ (List.replicate BUF_SIZE 0)
     [1, 2, 3, 4, 5, 6]).2.1 (by decide)⟩

end ModbusTcp
